import Mathlib

/-!
Shallow embedding of a minimal multithreaded TCP echo server (server.c).

The server has two components:
* `handle_client` — the per-connection echo handler: a recv loop that, for
  each chunk of bytes received, runs an inner send loop until the whole
  chunk is flushed, handling EINTR on recv, orderly peer close and I/O
  errors, and closing the connection on every exit path.
* `serverMain` — process startup (socket / setsockopt / bind / listen) and
  the accept loop, with EINTR retry on accept and fatal handling otherwise.

System calls are modelled by oracles: a list of `SendRes` for the results of
successive `send` calls, a list of `RecvEv` for the results of successive
`recv` calls, and a list of `AcceptEv` for the results of successive
`accept` calls.  Exhausting an oracle means the program is still blocked in
its loop; this is reported with a distinguished `stuck` outcome that no real
exit path produces.  Bytes are `Nat`, errno values are `Nat`, and `strerror`
is an arbitrary parameter `Nat → String` wherever a log message embeds the
system error description.
-/

namespace EchoServer

/-- errno value for "interrupted system call" on Linux. -/
def EINTR : Nat := 4

/-- Fixed receive buffer size of the handler (`const size_t BUF_SZ = 4096`). -/
def BUF_SZ : Nat := 4096

/-- Result of one `send` call: `ok s` models a return value `s ≥ 0`
(number of bytes transmitted), `err e` models a return value `< 0`
with `errno = e`. -/
inductive SendRes where
  | ok (s : Nat)
  | err (e : Nat)
deriving DecidableEq, Repr

/-- Outcome of the inner write loop (lines 40–49 of server.c).
`written` is the concatenation of all byte segments passed to `send`. -/
inductive SendOutcome where
  | flushed (written : List Nat) (rest : List SendRes)
  | sendError (written : List Nat) (e : Nat)
  | stalled (written : List Nat)
deriving DecidableEq, Repr

/-- The inner write loop of `handle_client`:

```
ssize_t sent = 0;
while (sent < n) {
    ssize_t s = send(client_fd, buf.data() + sent, (size_t)(n - sent), 0);
    if (s < 0) { log(...); close(client_fd); return; }
    sent += s;
}
```

`buf` is the received chunk, `n` the received byte count, `sent` the running
offset, and `oracle` the results of the successive `send` calls.  A call
returning `s` transmits the bytes `(buf.drop sent).take s` and advances
`sent` by `s`.  `stalled` means the oracle ran out while the loop was still
running. -/
def sendLoop (buf : List Nat) (n : Nat) : Nat → List SendRes → SendOutcome
  | sent, oracle =>
    if sent < n then
      match oracle with
      | [] => SendOutcome.stalled []
      | SendRes.err e :: _ => SendOutcome.sendError [] e
      | SendRes.ok s :: rest =>
        match sendLoop buf n (sent + s) rest with
        | SendOutcome.flushed w r => SendOutcome.flushed ((buf.drop sent).take s ++ w) r
        | SendOutcome.sendError w e => SendOutcome.sendError ((buf.drop sent).take s ++ w) e
        | SendOutcome.stalled w => SendOutcome.stalled ((buf.drop sent).take s ++ w)
    else SendOutcome.flushed [] oracle

/-- If the write loop flushed, the bytes it passed to `send` are exactly the
not-yet-sent part of the buffer: nothing is lost and nothing is duplicated. -/
theorem sendLoop_flushed_written (buf : List Nat) (sent : Nat) (oracle : List SendRes)
    (w : List Nat) (r : List SendRes)
    (h : sendLoop buf buf.length sent oracle = SendOutcome.flushed w r) :
    w = buf.drop sent := by
  induction oracle generalizing sent w r with
  | nil =>
    rw [sendLoop.eq_def] at h
    by_cases hs : sent < buf.length
    · simp [hs] at h
    · simp [hs] at h
      have : buf.length ≤ sent := Nat.le_of_not_lt hs
      simp [h.1, List.drop_eq_nil_of_le this]
  | cons hd tl ih =>
    rw [sendLoop.eq_def] at h
    by_cases hs : sent < buf.length
    · simp only [if_pos hs] at h
      match hd with
      | SendRes.err e => simp at h
      | SendRes.ok s =>
        simp only at h
        rcases hrec : sendLoop buf buf.length (sent + s) tl with w' | w' | w'
        case flushed r' =>
          rw [hrec] at h
          simp at h
          obtain ⟨hw, hr⟩ := h
          have hw' := ih (sent + s) w' r' hrec
          subst hw hw'
          rw [← List.drop_drop]
          exact List.take_append_drop s (buf.drop sent)
        case sendError e' => rw [hrec] at h; simp at h
        case stalled => rw [hrec] at h; simp at h
    · simp [hs] at h
      have : buf.length ≤ sent := Nat.le_of_not_lt hs
      simp [h.1, List.drop_eq_nil_of_le this]

/-- Result of one `recv` call: `data chunk` models a return value
`n = chunk.length > 0` with `chunk` the bytes placed in the buffer,
`closed` models a return value `0` (orderly peer close), and `rerror e`
models a return value `< 0` with `errno = e`. -/
inductive RecvEv where
  | data (chunk : List Nat)
  | closed
  | rerror (e : Nat)
deriving DecidableEq, Repr

/-- A message passed to the timestamped `log` function (stdout). -/
inductive LogMsg where
  | listening (port : Nat)
  | connected (ip : String) (port : Nat)
  | disconnected (ip : String) (port : Nat)
  | sendFailed (e : Nat)
  | recvFailed (e : Nat)
deriving DecidableEq, Repr

/-- How the handler's echo loop ended.  `stuck` is the model artifact for an
exhausted oracle (the real loop would still be blocked in a system call). -/
inductive Outcome where
  | peerClosed
  | recvError (e : Nat)
  | sendError (e : Nat)
  | stuck
deriving DecidableEq, Repr

/-- Observable effects of one run of the connection handler. `written` is the
concatenation of all bytes passed to `send`; `closes` counts calls of
`close(client_fd)`. -/
structure HandlerResult where
  written : List Nat
  logs : List LogMsg
  closes : Nat
  outcome : Outcome
deriving DecidableEq, Repr

/-- The outer echo loop of `handle_client` (lines 36–60 of server.c):

```
while (true) {
    ssize_t n = recv(client_fd, buf.data(), (int)BUF_SZ, 0);
    if (n > 0) {
        ...inner write loop, see sendLoop; on send error:
           log + close + return...
    } else if (n == 0) {
        log("Client disconnected: ...");
        break;
    } else {
        if (errno == EINTR) continue;
        log("Error in recv(): ...");
        break;
    }
}
```

`closes` counts only the `close` inside the loop body (line 45, reached on a
send error); the `close` after the loop (line 62) is added by
`handle_client` on the `break` paths. -/
def echoLoop (ip : String) (port : Nat) : List RecvEv → List SendRes → HandlerResult
  | [], _ => ⟨[], [], 0, Outcome.stuck⟩
  | RecvEv.data chunk :: rrest, sends =>
    match sendLoop chunk chunk.length 0 sends with
    | SendOutcome.flushed w rest =>
      let r := echoLoop ip port rrest rest
      ⟨w ++ r.written, r.logs, r.closes, r.outcome⟩
    | SendOutcome.sendError w e => ⟨w, [LogMsg.sendFailed e], 1, Outcome.sendError e⟩
    | SendOutcome.stalled w => ⟨w, [], 0, Outcome.stuck⟩
  | RecvEv.closed :: _, _ => ⟨[], [LogMsg.disconnected ip port], 0, Outcome.peerClosed⟩
  | RecvEv.rerror e :: rrest, sends =>
    if e = EINTR then echoLoop ip port rrest sends
    else ⟨[], [LogMsg.recvFailed e], 0, Outcome.recvError e⟩

/-- The function `handle_client` (lines 27–63 of server.c): logs
"Connected: ip:port", runs the echo loop, and performs the `close(client_fd)`
at line 62 — which is reached exactly on the `break` paths of the loop
(peer close and non-EINTR recv error); the send-error path closed at line 45
and returned. -/
def handle_client (ip : String) (port : Nat) (recvs : List RecvEv)
    (sends : List SendRes) : HandlerResult :=
  let r := echoLoop ip port recvs sends
  { written := r.written
    logs := LogMsg.connected ip port :: r.logs
    closes := r.closes +
      (match r.outcome with
       | Outcome.peerClosed => 1
       | Outcome.recvError _ => 1
       | _ => 0)
    outcome := r.outcome }

/-- The timestamped line produced by `log` (line 24 of server.c):
`"[" << put_time("%F %T") << "] " << s`. `ts` stands for the formatted
current time. -/
def timestampLine (ts msg : String) : String := "[" ++ ts ++ "] " ++ msg

/-- Rendering of handler/listener log messages to the strings passed to the
timestamped `log` function, with `strerror` the C library's error
description. -/
def renderLog (strerror : Nat → String) (ts : String) : LogMsg → String
  | LogMsg.listening port => timestampLine ts ("Listening on port " ++ toString port)
  | LogMsg.connected ip port =>
    timestampLine ts ("Connected: " ++ ip ++ ":" ++ toString port)
  | LogMsg.disconnected ip port =>
    timestampLine ts ("Client disconnected: " ++ ip ++ ":" ++ toString port)
  | LogMsg.sendFailed e => timestampLine ts ("Error in send(): " ++ strerror e)
  | LogMsg.recvFailed e => timestampLine ts ("Error in recv(): " ++ strerror e)

/-- A message written to `std::cerr` (startup failures and accept failure).
These lines do NOT go through `log` and carry no timestamp. -/
inductive CerrMsg where
  | socketFailed (e : Nat)
  | setsockoptFailed (e : Nat)
  | bindFailed (e : Nat)
  | listenFailed (e : Nat)
  | acceptFailed (e : Nat)
deriving DecidableEq, Repr

/-- Rendering of `std::cerr` lines, e.g.
`std::cerr << "accept() failed: " << std::strerror(errno) << "\n"`. -/
def renderCerr (strerror : Nat → String) : CerrMsg → String
  | CerrMsg.socketFailed e => "socket() failed: " ++ strerror e
  | CerrMsg.setsockoptFailed e => "setsockopt() failed: " ++ strerror e
  | CerrMsg.bindFailed e => "bind() failed: " ++ strerror e
  | CerrMsg.listenFailed e => "listen() failed: " ++ strerror e
  | CerrMsg.acceptFailed e => "accept() failed: " ++ strerror e

/-- Result of one `accept` call: a new connection with its remote address,
or a failure with `errno = e`. -/
inductive AcceptEv where
  | conn (ip : String) (port : Nat)
  | aerror (e : Nat)
deriving DecidableEq, Repr

/-- Observable effects of the accept loop: the connections dispatched to
handler threads (in order), the `std::cerr` output, and whether the loop
terminated (`break`) rather than running out of oracle events. -/
structure AcceptRes where
  spawned : List (String × Nat)
  cerr : List CerrMsg
  terminated : Bool
deriving DecidableEq, Repr

/-- The accept loop of `main` (lines 103–116 of server.c):

```
while (true) {
    int client_fd = accept(listen_fd, ...);
    if (client_fd < 0) {
        if (errno == EINTR) continue;
        std::cerr << "accept() failed: " << std::strerror(errno) << "\n";
        break;
    }
    std::thread t(handle_client, client_fd, client_addr);
    t.detach();
}
``` -/
def acceptLoop : List AcceptEv → AcceptRes
  | [] => ⟨[], [], false⟩
  | AcceptEv.conn ip port :: rest =>
    let r := acceptLoop rest
    ⟨(ip, port) :: r.spawned, r.cerr, r.terminated⟩
  | AcceptEv.aerror e :: rest =>
    if e = EINTR then acceptLoop rest
    else ⟨[], [CerrMsg.acceptFailed e], true⟩

/-- Result of one of the startup system calls (`socket`, `setsockopt`,
`bind`, `listen`): success, or failure with `errno = e`. -/
inductive SysRes where
  | ok
  | fail (e : Nat)
deriving DecidableEq, Repr

/-- The oracle for the four startup system calls of `main`. -/
structure StartupOracle where
  socketRes : SysRes
  setsockoptRes : SysRes
  bindRes : SysRes
  listenRes : SysRes
deriving DecidableEq, Repr

/-- All four startup calls succeed. -/
def startupOk (sys : StartupOracle) : Prop :=
  sys.socketRes = SysRes.ok ∧ sys.setsockoptRes = SysRes.ok ∧
    sys.bindRes = SysRes.ok ∧ sys.listenRes = SysRes.ok

instance (sys : StartupOracle) : Decidable (startupOk sys) := by
  unfold startupOk; infer_instance

/-- Observable effects of one run of `main`. `listenCloses` counts calls of
`close(listen_fd)`; `acceptEntered` records whether the accept loop was
reached; `exitCode = none` means the process has not exited (still blocked
in the accept loop when the oracle ran out). -/
structure MainRes where
  logs : List LogMsg
  cerr : List CerrMsg
  spawned : List (String × Nat)
  listenCloses : Nat
  acceptEntered : Bool
  exitCode : Option Nat
deriving DecidableEq, Repr

/-- The function `main` (lines 65–120 of server.c): `socket`, `setsockopt(SO_REUSEADDR)`,
`bind`, `listen` — each failure reports to `std::cerr` and returns 1
(closing `listen_fd` if it was created) — then the startup log line and the
accept loop; when the accept loop breaks, `close(listen_fd); return 0;`. -/
def serverMain (port : Nat) (sys : StartupOracle) (accepts : List AcceptEv) : MainRes :=
  match sys.socketRes with
  | SysRes.fail e => ⟨[], [CerrMsg.socketFailed e], [], 0, false, some 1⟩
  | SysRes.ok =>
    match sys.setsockoptRes with
    | SysRes.fail e => ⟨[], [CerrMsg.setsockoptFailed e], [], 1, false, some 1⟩
    | SysRes.ok =>
      match sys.bindRes with
      | SysRes.fail e => ⟨[], [CerrMsg.bindFailed e], [], 1, false, some 1⟩
      | SysRes.ok =>
        match sys.listenRes with
        | SysRes.fail e => ⟨[], [CerrMsg.listenFailed e], [], 1, false, some 1⟩
        | SysRes.ok =>
          let r := acceptLoop accepts
          ⟨[LogMsg.listening port], r.cerr, r.spawned,
            if r.terminated then 1 else 0, true,
            if r.terminated then some 0 else none⟩

/-- If the echo loop ends in orderly peer close after receiving the chunks
`chunks`, the bytes passed to `send` are the concatenation of the chunks. -/
theorem echoLoop_written_of_peerClosed (ip : String) (port : Nat)
    (chunks : List (List Nat)) (sends : List SendRes)
    (h : (echoLoop ip port (chunks.map RecvEv.data ++ [RecvEv.closed]) sends).outcome =
      Outcome.peerClosed) :
    (echoLoop ip port (chunks.map RecvEv.data ++ [RecvEv.closed]) sends).written =
      chunks.flatten := by
  induction chunks generalizing sends with
  | nil => simp [echoLoop]
  | cons c cs ih =>
    simp only [List.map_cons, List.cons_append, echoLoop] at h ⊢
    rcases hsl : sendLoop c c.length 0 sends with ⟨w, r⟩ | ⟨w, e⟩ | ⟨w⟩
    · rw [hsl] at h
      dsimp only at h ⊢
      simp only [List.append_eq] at h ⊢
      have hw : w = c := by
        simpa using sendLoop_flushed_written c 0 sends w r hsl
      rw [List.flatten_cons, hw, ih r h]
    · rw [hsl] at h
      simp at h
    · rw [hsl] at h
      simp at h

/-- C1: for every sequence of chunks delivered by successive `recv` calls
before orderly peer close, if the handler runs to the peer-close exit, the
concatenation of all bytes it passed to `send` equals the concatenation of
all bytes received, in receipt order, for any chunking into receives of at
most `BUF_SZ = 4096` bytes. -/
theorem echo_fidelity (ip : String) (port : Nat) (chunks : List (List Nat))
    (sends : List SendRes)
    (hchunks : ∀ c ∈ chunks, 0 < c.length ∧ c.length ≤ BUF_SZ)
    (hdone : (handle_client ip port (chunks.map RecvEv.data ++ [RecvEv.closed]) sends).outcome =
      Outcome.peerClosed) :
    (handle_client ip port (chunks.map RecvEv.data ++ [RecvEv.closed]) sends).written =
      chunks.flatten := by
  simp only [handle_client] at hdone ⊢
  exact echoLoop_written_of_peerClosed ip port chunks sends hdone

/-- Witness for C1 at chunks `[[1,2],[3]]` echoed by sends of 2 then 1 bytes. -/
theorem echo_fidelity_witness :
    (∀ c ∈ [[1, 2], [3]], 0 < c.length ∧ c.length ≤ BUF_SZ) ∧
    (handle_client "127.0.0.1" 50000 ([[1, 2], [3]].map RecvEv.data ++ [RecvEv.closed])
      [SendRes.ok 2, SendRes.ok 1]).outcome = Outcome.peerClosed ∧
    (handle_client "127.0.0.1" 50000 ([[1, 2], [3]].map RecvEv.data ++ [RecvEv.closed])
      [SendRes.ok 2, SendRes.ok 1]).written = [[1, 2], [3]].flatten :=
  ⟨by decide, by decide,
    echo_fidelity "127.0.0.1" 50000 [[1, 2], [3]] [SendRes.ok 2, SendRes.ok 1]
      (by decide) (by decide)⟩

/-- C2: on a received chunk of `n > 0` bytes, the write loop either flushes
exactly the chunk — no byte lost, none duplicated — and only then does the
handler move on to the next receive, or it exits on a write error, in which
case the handler terminates without consuming any further receive event;
exhausting the send oracle (the loop still running) is the only other
possibility. -/
theorem write_loop_completion (ip : String) (port : Nat) (chunk : List Nat)
    (rrest : List RecvEv) (sends : List SendRes) (h : 0 < chunk.length) :
    (∃ rest, sendLoop chunk chunk.length 0 sends = SendOutcome.flushed chunk rest ∧
      ∀ rrest2, echoLoop ip port (RecvEv.data chunk :: rrest2) sends =
        ⟨chunk ++ (echoLoop ip port rrest2 rest).written,
         (echoLoop ip port rrest2 rest).logs,
         (echoLoop ip port rrest2 rest).closes,
         (echoLoop ip port rrest2 rest).outcome⟩) ∨
    (∃ w e, sendLoop chunk chunk.length 0 sends = SendOutcome.sendError w e ∧
      ∀ rrest2, echoLoop ip port (RecvEv.data chunk :: rrest2) sends =
        ⟨w, [LogMsg.sendFailed e], 1, Outcome.sendError e⟩) ∨
    (∃ w, sendLoop chunk chunk.length 0 sends = SendOutcome.stalled w ∧
      (echoLoop ip port (RecvEv.data chunk :: rrest) sends).outcome = Outcome.stuck) := by
  rcases hsl : sendLoop chunk chunk.length 0 sends with ⟨w, r⟩ | ⟨w, e⟩ | ⟨w⟩
  · left
    have hw : w = chunk := by
      simpa using sendLoop_flushed_written chunk 0 sends w r hsl
    subst hw
    exact ⟨r, rfl, fun rrest2 => by simp [echoLoop, hsl]⟩
  · right; left
    exact ⟨w, e, rfl, fun rrest2 => by simp [echoLoop, hsl]⟩
  · right; right
    exact ⟨w, rfl, by simp [echoLoop, hsl]⟩

/-- Witness for C2 at chunk `[7]` with a single send of 1 byte. -/
theorem write_loop_completion_witness :
    0 < [7].length ∧
    ((∃ rest, sendLoop [7] [7].length 0 [SendRes.ok 1] = SendOutcome.flushed [7] rest ∧
      ∀ rrest2, echoLoop "10.0.0.1" 4000 (RecvEv.data [7] :: rrest2) [SendRes.ok 1] =
        ⟨[7] ++ (echoLoop "10.0.0.1" 4000 rrest2 rest).written,
         (echoLoop "10.0.0.1" 4000 rrest2 rest).logs,
         (echoLoop "10.0.0.1" 4000 rrest2 rest).closes,
         (echoLoop "10.0.0.1" 4000 rrest2 rest).outcome⟩) ∨
    (∃ w e, sendLoop [7] [7].length 0 [SendRes.ok 1] = SendOutcome.sendError w e ∧
      ∀ rrest2, echoLoop "10.0.0.1" 4000 (RecvEv.data [7] :: rrest2) [SendRes.ok 1] =
        ⟨w, [LogMsg.sendFailed e], 1, Outcome.sendError e⟩) ∨
    (∃ w, sendLoop [7] [7].length 0 [SendRes.ok 1] = SendOutcome.stalled w ∧
      (echoLoop "10.0.0.1" 4000 (RecvEv.data [7] :: []) [SendRes.ok 1]).outcome =
        Outcome.stuck)) :=
  ⟨by decide, write_loop_completion "10.0.0.1" 4000 [7] [] [SendRes.ok 1] (by decide)⟩

/-- Inside the echo loop, `close(client_fd)` has run exactly once on the
send-error exit (line 45) and not at all otherwise. -/
theorem echoLoop_closes_eq (ip : String) (port : Nat) (recvs : List RecvEv)
    (sends : List SendRes) :
    (echoLoop ip port recvs sends).closes =
      (match (echoLoop ip port recvs sends).outcome with
       | Outcome.sendError _ => 1
       | _ => 0) := by
  induction recvs generalizing sends with
  | nil => simp [echoLoop]
  | cons ev rrest ih =>
    match ev with
    | RecvEv.data chunk =>
      simp only [echoLoop]
      rcases hsl : sendLoop chunk chunk.length 0 sends with ⟨w, r⟩ | ⟨w, e⟩ | ⟨w⟩
      · exact ih r
      · rfl
      · rfl
    | RecvEv.closed => rfl
    | RecvEv.rerror e =>
      simp only [echoLoop]
      by_cases he : e = EINTR
      · simp only [if_pos he]
        exact ih sends
      · simp [if_neg he]

/-- C3: on every exit path of the connection handler — orderly peer close,
receive error, or send error — `close(client_fd)` runs exactly once; the
only runs with a different close count are the model-artifact `stuck` runs,
where the loop has not exited at all. -/
theorem close_exactly_once (ip : String) (port : Nat) (recvs : List RecvEv)
    (sends : List SendRes)
    (h : (handle_client ip port recvs sends).outcome ≠ Outcome.stuck) :
    (handle_client ip port recvs sends).closes = 1 := by
  have hc := echoLoop_closes_eq ip port recvs sends
  simp only [handle_client] at h ⊢
  rcases ho : (echoLoop ip port recvs sends).outcome with _ | e | e | _ <;>
    rw [ho] at hc h <;> simp_all

/-- Witness for C3 on a run ending in orderly peer close. -/
theorem close_exactly_once_witness :
    (handle_client "192.168.0.2" 6000 [RecvEv.closed] []).outcome ≠ Outcome.stuck ∧
    (handle_client "192.168.0.2" 6000 [RecvEv.closed] []).closes = 1 :=
  ⟨by decide, close_exactly_once "192.168.0.2" 6000 [RecvEv.closed] [] (by decide)⟩

/-- C4: a `recv` failing with `EINTR` is retried immediately with the whole
handler state unchanged, and only `EINTR` is retried: any other `recv` error
logs "Error in recv()" and terminates the echo loop — independently of any
later receive events — with no bytes written and no retry. -/
theorem recv_error_policy (ip : String) (port : Nat) (e : Nat)
    (rrest rrest2 : List RecvEv) (sends : List SendRes) (he : e ≠ EINTR) :
    echoLoop ip port (RecvEv.rerror EINTR :: rrest) sends =
      echoLoop ip port rrest sends ∧
    echoLoop ip port (RecvEv.rerror e :: rrest2) sends =
      ⟨[], [LogMsg.recvFailed e], 0, Outcome.recvError e⟩ := by
  constructor
  · simp [echoLoop]
  · simp [echoLoop, if_neg he]

/-- Witness for C4 with `ECONNRESET` (104) as the non-EINTR error. -/
theorem recv_error_policy_witness :
    (104 : Nat) ≠ EINTR ∧
    (echoLoop "10.1.1.1" 7000 [RecvEv.rerror EINTR, RecvEv.closed] [] =
       echoLoop "10.1.1.1" 7000 [RecvEv.closed] [] ∧
     echoLoop "10.1.1.1" 7000 [RecvEv.rerror 104] [] =
       ⟨[], [LogMsg.recvFailed 104], 0, Outcome.recvError 104⟩) :=
  ⟨by decide, recv_error_policy "10.1.1.1" 7000 104 [RecvEv.closed] [] [] (by decide)⟩

/-- C5: a `recv` returning 0 (orderly peer close) makes the handler log
"Client disconnected: ip:port" with the address captured at accept time and
leave the loop normally; the result does not depend on any later receive or
send events — nothing further is received or sent — and the handler closes
the connection once. -/
theorem orderly_close (ip : String) (port : Nat) (rrest : List RecvEv)
    (sends : List SendRes) (strerror : Nat → String) (ts : String) :
    echoLoop ip port (RecvEv.closed :: rrest) sends =
      ⟨[], [LogMsg.disconnected ip port], 0, Outcome.peerClosed⟩ ∧
    handle_client ip port (RecvEv.closed :: rrest) sends =
      ⟨[], [LogMsg.connected ip port, LogMsg.disconnected ip port], 1,
        Outcome.peerClosed⟩ ∧
    renderLog strerror ts (LogMsg.disconnected ip port) =
      "[" ++ ts ++ "] " ++ ("Client disconnected: " ++ ip ++ ":" ++ toString port) := by
  refine ⟨by simp [echoLoop], ?_, rfl⟩
  simp [handle_client, echoLoop]

/-- C6: an `accept` failing with `EINTR` is retried immediately with no state
change, and only `EINTR`: any other `accept` failure is reported and breaks
the accept loop — independently of any later accept events — after which
`main` closes the listening socket exactly once. -/
theorem accept_error_policy (e : Nat) (rest rest2 : List AcceptEv)
    (port : Nat) (sys : StartupOracle) (accepts : List AcceptEv)
    (he : e ≠ EINTR) (hok : startupOk sys)
    (hterm : (acceptLoop accepts).terminated = true) :
    acceptLoop (AcceptEv.aerror EINTR :: rest) = acceptLoop rest ∧
    acceptLoop (AcceptEv.aerror e :: rest2) =
      ⟨[], [CerrMsg.acceptFailed e], true⟩ ∧
    (serverMain port sys accepts).listenCloses = 1 := by
  obtain ⟨h1, h2, h3, h4⟩ := hok
  refine ⟨by simp [acceptLoop], by simp [acceptLoop, if_neg he], ?_⟩
  simp [serverMain, h1, h2, h3, h4, hterm]

/-- Witness for C6 with `EBADF` (9) as the non-EINTR accept error. -/
theorem accept_error_policy_witness :
    ((9 : Nat) ≠ EINTR ∧
     startupOk ⟨SysRes.ok, SysRes.ok, SysRes.ok, SysRes.ok⟩ ∧
     (acceptLoop [AcceptEv.aerror 9]).terminated = true) ∧
    (acceptLoop [AcceptEv.aerror EINTR] = acceptLoop [] ∧
     acceptLoop [AcceptEv.aerror 9] = ⟨[], [CerrMsg.acceptFailed 9], true⟩ ∧
     (serverMain 8080 ⟨SysRes.ok, SysRes.ok, SysRes.ok, SysRes.ok⟩
       [AcceptEv.aerror 9]).listenCloses = 1) :=
  ⟨⟨by decide, by decide, by decide⟩,
    accept_error_policy 9 [] [] 8080 ⟨SysRes.ok, SysRes.ok, SysRes.ok, SysRes.ok⟩
      [AcceptEv.aerror 9] (by decide) (by decide) (by decide)⟩

/-- C7: when startup succeeds and the accept loop terminates on a fatal
accept error, the process exits with code 0 after closing the listening
socket; when any of the four startup calls fails, the process exits with
code 1 and the accept loop is never entered. -/
theorem exit_codes (port : Nat) (sys : StartupOracle) (accepts : List AcceptEv) :
    (startupOk sys →
      (serverMain port sys accepts).acceptEntered = true ∧
      ((acceptLoop accepts).terminated = true →
        (serverMain port sys accepts).exitCode = some 0 ∧
        (serverMain port sys accepts).listenCloses = 1)) ∧
    (¬ startupOk sys →
      (serverMain port sys accepts).exitCode = some 1 ∧
      (serverMain port sys accepts).acceptEntered = false) := by
  obtain ⟨s1, s2, s3, s4⟩ := sys
  cases s1 <;> cases s2 <;> cases s3 <;> cases s4 <;>
    simp [serverMain, startupOk]

/-- Witness for C7 covering both a successful startup with a fatal accept
error and a failed `bind`. -/
theorem exit_codes_witness :
    ((serverMain 8080 ⟨SysRes.ok, SysRes.ok, SysRes.ok, SysRes.ok⟩
        [AcceptEv.aerror 9]).acceptEntered = true ∧
     (serverMain 8080 ⟨SysRes.ok, SysRes.ok, SysRes.ok, SysRes.ok⟩
        [AcceptEv.aerror 9]).exitCode = some 0) ∧
    ((serverMain 8080 ⟨SysRes.ok, SysRes.ok, SysRes.fail 98, SysRes.ok⟩
        []).exitCode = some 1 ∧
     (serverMain 8080 ⟨SysRes.ok, SysRes.ok, SysRes.fail 98, SysRes.ok⟩
        []).acceptEntered = false) := by
  constructor
  · have h := (exit_codes 8080 ⟨SysRes.ok, SysRes.ok, SysRes.ok, SysRes.ok⟩
      [AcceptEv.aerror 9]).1 (by decide)
    exact ⟨h.1, (h.2 (by decide)).1⟩
  · exact (exit_codes 8080 ⟨SysRes.ok, SysRes.ok, SysRes.fail 98, SysRes.ok⟩ []).2
      (by decide)

/-- An accept failure is reported on `std::cerr` without the timestamped
`[..] ` prefix: its line never equals `timestampLine ts msg` for any
timestamp and message, because it starts with 'a', not '['. -/
theorem error_line_format_counterexample :
    (serverMain 8080 ⟨SysRes.ok, SysRes.ok, SysRes.ok, SysRes.ok⟩
      [AcceptEv.aerror 9]).cerr = [CerrMsg.acceptFailed 9] ∧
    (serverMain 8080 ⟨SysRes.ok, SysRes.ok, SysRes.ok, SysRes.ok⟩
      [AcceptEv.aerror 9]).logs = [LogMsg.listening 8080] ∧
    ¬ ∃ ts msg, renderCerr (fun e => "errno " ++ toString e) (CerrMsg.acceptFailed 9) =
        timestampLine ts msg := by
  refine ⟨by decide, by decide, ?_⟩
  rintro ⟨ts, msg, h⟩
  have hd := congrArg String.data h
  simp only [renderCerr, timestampLine, String.data_append] at hd
  have hh := congrArg List.head? hd
  simp at hh

/-- C8 (amended): receive and send errors are logged through the timestamped
`log` function, producing `[<ts>] Error in recv(): <strerror>` and
`[<ts>] Error in send(): <strerror>` lines; an accept failure is instead
written to `std::cerr` as a plain `accept() failed: <strerror>` line with no
timestamp prefix. -/
theorem error_line_format_amended (e : Nat) (strerror : Nat → String)
    (ts ip : String) (port : Nat) (rrest : List RecvEv) (sends : List SendRes)
    (chunk : List Nat) (hc : 0 < chunk.length) (he : e ≠ EINTR) :
    renderLog strerror ts (LogMsg.recvFailed e) =
      timestampLine ts ("Error in recv(): " ++ strerror e) ∧
    renderLog strerror ts (LogMsg.sendFailed e) =
      timestampLine ts ("Error in send(): " ++ strerror e) ∧
    (echoLoop ip port (RecvEv.rerror e :: rrest) sends).logs =
      [LogMsg.recvFailed e] ∧
    (echoLoop ip port (RecvEv.data chunk :: rrest) (SendRes.err e :: sends)).logs =
      [LogMsg.sendFailed e] ∧
    renderCerr strerror (CerrMsg.acceptFailed e) = "accept() failed: " ++ strerror e := by
  refine ⟨rfl, rfl, by simp [echoLoop, if_neg he], ?_, rfl⟩
  have hsl : sendLoop chunk chunk.length 0 (SendRes.err e :: sends) =
      SendOutcome.sendError [] e := by
    rw [sendLoop.eq_def]
    simp [hc]
  simp [echoLoop, hsl]

/-- Witness for the amended C8 at `ECONNRESET` (104) on a 1-byte chunk. -/
theorem error_line_format_amended_witness :
    (0 < [7].length ∧ (104 : Nat) ≠ EINTR) ∧
    (renderLog (fun e => "errno " ++ toString e) "2026-10-12 12:00:00"
        (LogMsg.recvFailed 104) =
      timestampLine "2026-10-12 12:00:00" ("Error in recv(): " ++
        (fun e => "errno " ++ toString e) 104) ∧
     renderLog (fun e => "errno " ++ toString e) "2026-10-12 12:00:00"
        (LogMsg.sendFailed 104) =
      timestampLine "2026-10-12 12:00:00" ("Error in send(): " ++
        (fun e => "errno " ++ toString e) 104) ∧
     (echoLoop "172.16.0.9" 9000 (RecvEv.rerror 104 :: []) []).logs =
       [LogMsg.recvFailed 104] ∧
     (echoLoop "172.16.0.9" 9000 (RecvEv.data [7] :: []) (SendRes.err 104 :: [])).logs =
       [LogMsg.sendFailed 104] ∧
     renderCerr (fun e => "errno " ++ toString e) (CerrMsg.acceptFailed 104) =
       "accept() failed: " ++ (fun e => "errno " ++ toString e) 104) :=
  ⟨⟨by decide, by decide⟩,
    error_line_format_amended 104 (fun e => "errno " ++ toString e)
      "2026-10-12 12:00:00" "172.16.0.9" 9000 [] [] [7] (by decide) (by decide)⟩

/-- If no `send` result in the oracle is a zero-byte success and the oracle
has at least as many entries as there are bytes left to send, the write loop
cannot run out of oracle events: every successful call makes strict
progress. -/
theorem sendLoop_no_stall (buf : List Nat) (o : List SendRes)
    (hpos : ∀ r ∈ o, r ≠ SendRes.ok 0) :
    ∀ sent, buf.length - sent ≤ o.length →
      ∀ w, sendLoop buf buf.length sent o ≠ SendOutcome.stalled w := by
  induction o with
  | nil =>
    intro sent hlen w
    simp only [List.length_nil, Nat.le_zero] at hlen
    have hns : ¬ sent < buf.length := by omega
    rw [sendLoop.eq_def]
    simp [hns]
  | cons hd tl ih =>
    intro sent hlen w
    rw [sendLoop.eq_def]
    by_cases hs : sent < buf.length
    · simp only [if_pos hs]
      match hd with
      | SendRes.err e => simp
      | SendRes.ok s =>
        have hs0 : s ≠ 0 := by
          intro h0
          exact hpos (SendRes.ok s) (List.mem_cons_self _ _) (by rw [h0])
        have hpos' : ∀ r ∈ tl, r ≠ SendRes.ok 0 := fun r hr =>
          hpos r (List.mem_cons_of_mem _ hr)
        have hlen' : buf.length - (sent + s) ≤ tl.length := by
          simp only [List.length_cons] at hlen
          omega
        have hrec := ih hpos' (sent + s) hlen'
        dsimp only
        rcases hr : sendLoop buf buf.length (sent + s) tl with ⟨w', r'⟩ | ⟨w', e'⟩ | ⟨w'⟩
        · simp
        · simp
        · exact absurd hr (hrec w')
    · simp [hs]

/-- C9: the inner write loop is well-founded exactly under the precondition
that `send` never reports a zero-byte success on a pending chunk: a call
returning 0 consumes a loop iteration with no progress at all, while under
the precondition the remaining byte count strictly decreases and the loop
ends (flushed or write error) within one oracle event per pending byte. -/
theorem send_loop_termination (buf : List Nat) (sent : Nat) (o : List SendRes)
    (hlt : sent < buf.length)
    (hpos : ∀ r ∈ o, r ≠ SendRes.ok 0)
    (hlen : buf.length - sent ≤ o.length) :
    sendLoop buf buf.length sent (SendRes.ok 0 :: o) =
      sendLoop buf buf.length sent o ∧
    ∀ w, sendLoop buf buf.length sent o ≠ SendOutcome.stalled w := by
  constructor
  · rw [sendLoop.eq_def]
    simp only [if_pos hlt]
    rcases hr : sendLoop buf buf.length (sent + 0) o with ⟨w', r'⟩ | ⟨w', e'⟩ | ⟨w'⟩ <;>
      rw [Nat.add_zero] at hr <;> simp [hr]
  · exact sendLoop_no_stall buf o hpos sent hlen

/-- Witness for C9 on a 2-byte buffer with two 1-byte sends. -/
theorem send_loop_termination_witness :
    (0 < [5, 6].length ∧
     (∀ r ∈ [SendRes.ok 1, SendRes.ok 1], r ≠ SendRes.ok 0) ∧
     [5, 6].length - 0 ≤ [SendRes.ok 1, SendRes.ok 1].length) ∧
    (sendLoop [5, 6] [5, 6].length 0 (SendRes.ok 0 :: [SendRes.ok 1, SendRes.ok 1]) =
       sendLoop [5, 6] [5, 6].length 0 [SendRes.ok 1, SendRes.ok 1] ∧
     ∀ w, sendLoop [5, 6] [5, 6].length 0 [SendRes.ok 1, SendRes.ok 1] ≠
       SendOutcome.stalled w) :=
  ⟨⟨by decide, by decide, by decide⟩,
    send_loop_termination [5, 6] 0 [SendRes.ok 1, SendRes.ok 1]
      (by decide) (by decide) (by decide)⟩

/-- C10: a negative `send` return is fatal no matter the errno — in
particular `EINTR`, which the code retries for `recv` and `accept`, is not
retried for `send`: the first failing send ends the write loop with a send
error, and the handler logs "Error in send()", closes the connection once,
and returns immediately, independently of any later receive or send
events. -/
theorem send_error_fatal (ip : String) (port : Nat) (chunk : List Nat) (e : Nat)
    (rrest : List RecvEv) (sends : List SendRes) (hc : 0 < chunk.length) :
    sendLoop chunk chunk.length 0 (SendRes.err e :: sends) =
      SendOutcome.sendError [] e ∧
    handle_client ip port (RecvEv.data chunk :: rrest) (SendRes.err e :: sends) =
      ⟨[], [LogMsg.connected ip port, LogMsg.sendFailed e], 1, Outcome.sendError e⟩ := by
  have hsl : sendLoop chunk chunk.length 0 (SendRes.err e :: sends) =
      SendOutcome.sendError [] e := by
    rw [sendLoop.eq_def]
    simp [hc]
  exact ⟨hsl, by simp [handle_client, echoLoop, hsl]⟩

/-- Witness for C10 with the send failing with `EINTR` itself. -/
theorem send_error_fatal_witness :
    0 < [3].length ∧
    (sendLoop [3] [3].length 0 (SendRes.err EINTR :: []) =
       SendOutcome.sendError [] EINTR ∧
     handle_client "10.9.8.7" 1234 (RecvEv.data [3] :: [RecvEv.closed])
         (SendRes.err EINTR :: []) =
       ⟨[], [LogMsg.connected "10.9.8.7" 1234, LogMsg.sendFailed EINTR], 1,
         Outcome.sendError EINTR⟩) :=
  ⟨by decide,
    send_error_fatal "10.9.8.7" 1234 [3] EINTR [RecvEv.closed] [] (by decide)⟩

end EchoServer
